import Mathlib

/-!
A shallow embedding of `src/iedb_runner.py`, the script that submits each
sequence record of a FASTA file to the IEDB MHC-II binding service and writes
two CSV artifacts per successful record.

Modelling conventions:
* A pandas `DataFrame` is a list of column names together with a list of rows
  (each row a list of cell strings).
* The remote service `iedb.query_mhcii_binding` is abstracted as an oracle
  mapping (sequence, allele string, attempt number) to a response: a returned
  `DataFrame`, a returned `None`, or a raised exception.  The attempt number
  indexes the nondeterminism of the flaky remote dependency.
* Module-level constants (`MAX_API_RETRIES`, ...) become parameters of the
  functions that read them, with the concrete constants defined alongside.
* `sleep`/jitter only spend wall-clock time; they have no semantic effect and
  are not modelled.
* Raised Python exceptions are modelled with `Except String`; a function whose
  Lean type is not `Except` cannot raise past its boundary by construction.
* Writing a CSV file is modelled as emitting a `WriteEvent` (path and the
  `DataFrame` written); the log file as a list of `LogEvent`s.
-/

/-- One cell of a pandas table, kept abstract as a string. -/
abbrev Cell := String

/-- A pandas `DataFrame`: column names plus rows of cells. -/
structure DataFrame where
  cols : List String
  rows : List (List Cell)
deriving DecidableEq, Repr

/-- pandas `DataFrame.empty`: true when any axis has length 0. -/
def DataFrame.isEmpty (df : DataFrame) : Bool :=
  df.rows.isEmpty || df.cols.isEmpty

/-- pandas `df[name] = value` with a scalar: overwrite the column in place if
it exists, otherwise append it on the right with `value` in every row. -/
def DataFrame.setColumn (df : DataFrame) (name : String) (value : Cell) : DataFrame :=
  if df.cols.contains name then
    { cols := df.cols,
      rows := df.rows.map (fun r => r.set (df.cols.indexOf name) value) }
  else
    { cols := df.cols ++ [name],
      rows := df.rows.map (fun r => r ++ [value]) }

/-- pandas `df.iloc[:, :n]`: keep the first `n` columns of every row. -/
def DataFrame.ilocCols (df : DataFrame) (n : Nat) : DataFrame :=
  { cols := df.cols.take n,
    rows := df.rows.map (List.take n) }

/-- Response of one call to `iedb.query_mhcii_binding`: a returned table, a
returned `None`, or a raised exception. -/
inductive ApiResponse where
  | ok (df : DataFrame)
  | none
  | error (msg : String)
deriving DecidableEq, Repr

/-- A response that sends `query_mhcii_with_retry` into its `except` branch:
either a raised exception, or a `None` payload (which the code turns into a
raised exception itself). -/
def ApiResponse.isErrorLike : ApiResponse → Bool
  | .ok _ => false
  | .none => true
  | .error _ => true

/-- The remote service as seen by one record: given the submitted sequence,
the allele string and the (1-based) attempt number, what does the call do? -/
abbrev RemoteOracle := String → String → Nat → ApiResponse

/-- Log lines emitted by `query_mhcii_with_retry`, one per attempt. -/
inductive LogEvent where
  /-- "IEDB query successful on attempt {a}." -/
  | successLog (attempt : Nat)
  /-- "IEDB query successful, but returned an EMPTY DataFrame. ..." -/
  | emptyLog (attempt : Nat)
  /-- "IEDB query failed (Attempt {a}/{max})" + "Retrying in {d} seconds..." -/
  | failWarn (attempt : Nat)
  /-- "Max retries reached ({max}). Failing this sequence." -/
  | maxRetriesError (attempt : Nat)
deriving DecidableEq, Repr

/-- The `while attempts < max_retries` loop of `query_mhcii_with_retry`.
`attempts` is the counter so far; `fuel` is the termination measure, always
instantiated with `max_retries - attempts` so that `fuel = 0` is exactly the
loop guard failing.  Returns the Python return value (`Option DataFrame`,
`none` modelling the Python `None`), the final value of `attempts`, and the
log lines emitted. -/
def retryLoop (oracle : Nat → ApiResponse) (max_retries : Nat) :
    Nat → Nat → Option DataFrame × Nat × List LogEvent
  | attempts, 0 => (Option.none, attempts, [])
  | attempts, fuel + 1 =>
    let a := attempts + 1
    match oracle a with
    | ApiResponse.ok df =>
      if df.isEmpty = false then
        -- `if mhcii_res is not None and not mhcii_res.empty: return mhcii_res`
        (Option.some df, a, [LogEvent.successLog a])
      else
        -- `elif mhcii_res is not None and mhcii_res.empty: return mhcii_res`
        (Option.some df, a, [LogEvent.emptyLog a])
    | ApiResponse.none =>
      -- `else: raise Exception("API call returned None unexpectedly.")`,
      -- immediately caught by the surrounding `except` block below.
      if a = max_retries then
        (Option.none, a, [LogEvent.maxRetriesError a])
      else
        let r := retryLoop oracle max_retries a fuel
        (r.1, r.2.1, LogEvent.failWarn a :: r.2.2)
    | ApiResponse.error _ =>
      -- `except Exception as e:` with `if attempts == max_retries: return None`
      if a = max_retries then
        (Option.none, a, [LogEvent.maxRetriesError a])
      else
        let r := retryLoop oracle max_retries a fuel
        (r.1, r.2.1, LogEvent.failWarn a :: r.2.2)

/-- `query_mhcii_with_retry(sequence, alleles_str, max_retries, delay_seconds,
protein_name)`. `delay_seconds` only feeds `time.sleep` and the log text, and
`protein_name` only the log text, so neither affects the returned data. -/
def query_mhcii_with_retry (remote : RemoteOracle) (sequence : String)
    (alleles_str : String) (max_retries : Nat) (delay_seconds : Nat)
    (protein_name : String) : Option DataFrame × Nat × List LogEvent :=
  let _ := delay_seconds
  let _ := protein_name
  retryLoop (remote sequence alleles_str) max_retries 0 max_retries

/-- The three outcome kinds of the spec, read off a returned value. -/
inductive Outcome where
  | success (df : DataFrame)
  | emptyResult (df : DataFrame)
  | permanentFailure
deriving DecidableEq, Repr

/-- Classify the Python return value of `query_mhcii_with_retry`. -/
def outcomeOf : Option DataFrame → Outcome
  | Option.none => Outcome.permanentFailure
  | Option.some df =>
    if df.isEmpty then Outcome.emptyResult df else Outcome.success df

-- Module-level configuration constants of `iedb_runner.py`.

/-- `NUM_PROCESSES = 4` -/
def NUM_PROCESSES : Nat := 4

/-- `MAX_API_RETRIES = 15` -/
def MAX_API_RETRIES : Nat := 15

/-- `RETRY_DELAY_SECONDS = 10` -/
def RETRY_DELAY_SECONDS : Nat := 10

/-- `Python str.replace(old, new)` for a single-character pattern: replace
every occurrence of the character `old` by `new`, over the character list. -/
def pyReplaceChar (s : List Char) (old new : Char) : List Char :=
  s.map (fun c => if c = old then new else c)

/-- The inline sanitizer of `iedb_worker`:
`str(seq_record.seq).replace('X', 'A').replace('B', 'A').replace('J', 'A')`. -/
def sanitizeList (s : List Char) : List Char :=
  pyReplaceChar (pyReplaceChar (pyReplaceChar s 'X' 'A') 'B' 'A') 'J' 'A'

/-- The sanitizer on strings, as applied to `seq_record.seq`. -/
def sanitize (s : String) : String :=
  String.mk (sanitizeList s.data)

/-- One FASTA record as produced by `SeqIO.parse`: identifier and residues. -/
structure SeqRecord where
  id : String
  seq : String
deriving DecidableEq, Repr

/-- One `to_csv` call: the target path and the table written. -/
structure WriteEvent where
  path : String
  df : DataFrame
deriving DecidableEq, Repr

/-- Which paths the filesystem fails to write (modelling `to_csv` raising,
e.g. on a full disk); `fun _ => false` is a healthy filesystem. -/
abbrev PersistFailure := String → Bool

/-- `iedb_worker(seq_record, long_dir, short_dir, alleles_str, species)`.

The remote service and the filesystem are passed as oracles; the module
globals `MAX_API_RETRIES` and `RETRY_DELAY_SECONDS` the Python body reads are
passed as the parameters `max_retries` and `delay_seconds`.  `species` is
accepted and unused, exactly as in the source.  Returns the list of files
written, or `Except.error` for an exception that escapes the worker (the body
has no try/except of its own). -/
def iedb_worker (remote : RemoteOracle) (persistFails : PersistFailure)
    (max_retries delay_seconds : Nat) (seq_record : SeqRecord)
    (long_dir short_dir : String) (alleles_str : String) (species : String) :
    Except String (List WriteEvent) :=
  let _ := species
  let protein_name := seq_record.id
  let sequence := sanitize seq_record.seq
  match (query_mhcii_with_retry remote sequence alleles_str max_retries
      delay_seconds protein_name).1 with
  | Option.none => Except.ok []  -- `if mhcii_res is None: return`
  | Option.some mhcii_res =>
    let long_result_path := long_dir ++ "/" ++ protein_name ++ "_RESULTS_LONG.csv"
    let mhcii_res := mhcii_res.setColumn "protein" protein_name
    if persistFails long_result_path then
      Except.error ("to_csv failed: " ++ long_result_path)
    else
      let short_result_path := short_dir ++ "/" ++ protein_name ++ "_RESULTS_SHORT.csv"
      if persistFails short_result_path then
        Except.error ("to_csv failed: " ++ short_result_path)
      else
        Except.ok [⟨long_result_path, mhcii_res⟩,
                   ⟨short_result_path, mhcii_res.ilocCols 8⟩]

/-- Terminal states of `main`. -/
inductive TerminalState where
  /-- `if seq_number == 0: ... return` -/
  | noInput
  /-- fell through to `Process End` logging -/
  | completed
  /-- `sys.exit(1)` in the FASTA-parse `except` branch -/
  | setupFailure
deriving DecidableEq, Repr

/-- Log lines emitted by `main`. -/
inductive MainEvent where
  /-- "Number of sequences: {n}" -/
  | seqCount (n : Nat)
  /-- "Error reading FASTA file: ..." -/
  | fastaReadError
  /-- "No sequences found in the FASTA file. Exiting." -/
  | noInputWarn
  /-- "Process Start" -/
  | processStart
  /-- "A CRITICAL error occurred during multiprocessing Pool setup: ..." -/
  | criticalPoolError
  /-- "Process End" -/
  | processEnd
deriving DecidableEq, Repr

/-- Result of one run of `main`. -/
structure MainResult where
  terminal : TerminalState
  /-- whether `Pool(NUM_PROCESSES)` was entered and `starmap` dispatched -/
  poolStarted : Bool
  logs : List MainEvent
deriving DecidableEq, Repr

/-- `Pool.starmap(iedb_worker, tasks_iterable)`: run the task body once per
record; a worker exception is re-raised out of `starmap` in the parent. -/
def poolStarmap (worker : SeqRecord → Except String (List WriteEvent))
    (recs : List SeqRecord) : Except String (List (List WriteEvent)) :=
  recs.mapM worker

/-- `main()`.  `parseResult` abstracts `list(SeqIO.parse(FASTA_PATH, 'fasta'))`
(`Except.error` when parsing raises); `worker` is the task body with the
static config tuple already attached, as in `tasks_iterable`. -/
def mainRun (parseResult : Except String (List SeqRecord))
    (worker : SeqRecord → Except String (List WriteEvent)) : MainResult :=
  match parseResult with
  | Except.error _ =>
    ⟨TerminalState.setupFailure, false, [MainEvent.fastaReadError]⟩
  | Except.ok fasta_sequences =>
    let seq_number := fasta_sequences.length
    if seq_number = 0 then
      ⟨TerminalState.noInput, false,
        [MainEvent.seqCount seq_number, MainEvent.noInputWarn]⟩
    else
      match poolStarmap worker fasta_sequences with
      | Except.ok _ =>
        ⟨TerminalState.completed, true,
          [MainEvent.seqCount seq_number, MainEvent.processStart,
           MainEvent.processEnd]⟩
      | Except.error _ =>
        -- `except Exception as e: logging.critical(...)`; execution then
        -- falls through to the `Process End` summary.
        ⟨TerminalState.completed, true,
          [MainEvent.seqCount seq_number, MainEvent.processStart,
           MainEvent.criticalPoolError, MainEvent.processEnd]⟩

/-- Replacing every `None` response of the oracle by the exception the code
raises for it (`"API call returned None unexpectedly."`). -/
def mapNoneToError (oracle : Nat → ApiResponse) : Nat → ApiResponse :=
  fun j =>
    match oracle j with
    | ApiResponse.none => ApiResponse.error "API call returned None unexpectedly."
    | r => r

/-- The spec's description of the sanitizer, as a single character map:
the three ambiguous symbols `X`, `B`, `J` become the canonical substitute
`A`; every other character passes through unchanged. -/
def sanitizeCharSpec (c : Char) : Char :=
  if c = 'X' ∨ c = 'B' ∨ c = 'J' then 'A' else c

/-- A concrete 9-column IEDB-style result table with one row, used as the
sample input of several witnesses. -/
def sampleResult : DataFrame :=
  ⟨["allele", "seq_num", "start", "end", "length", "core_peptide", "peptide",
    "ic50", "rank"],
   [["H2-IAb", "1", "1", "15", "15", "COREPEPTL", "COREPEPTLGXTR", "12.3", "0.5"]]⟩

/-! ### Helper lemmas about the retry loop -/

/-- The loop increments `attempts` at most once per unit of fuel. -/
theorem retryLoop_attempts_le (oracle : Nat → ApiResponse) (m : Nat) :
    ∀ fuel attempts, (retryLoop oracle m attempts fuel).2.1 ≤ attempts + fuel := by
  intro fuel
  induction fuel with
  | zero => intro attempts; simp [retryLoop]
  | succ n ih =>
    intro attempts
    simp only [retryLoop]
    cases oracle (attempts + 1) with
    | ok df =>
      by_cases he : df.isEmpty = false <;> simp [he]
    | none =>
      by_cases hm : attempts + 1 = m
      · simp [hm]; omega
      · simp only [hm, if_false]
        have := ih (attempts + 1)
        omega
    | error msg =>
      by_cases hm : attempts + 1 = m
      · simp [hm]; omega
      · simp only [hm, if_false]
        have := ih (attempts + 1)
        omega

/-- If every remaining attempt errors (or yields a `None` payload), the loop
returns the Python `None` after exactly `m` total attempts, logging one line
per attempt performed. -/
theorem retryLoop_all_error (oracle : Nat → ApiResponse) (m : Nat) :
    ∀ fuel attempts, attempts + fuel = m →
      (∀ j, attempts < j → j ≤ m → (oracle j).isErrorLike = true) →
      (retryLoop oracle m attempts fuel).1 = Option.none ∧
      (retryLoop oracle m attempts fuel).2.1 = m ∧
      (retryLoop oracle m attempts fuel).2.2.length = fuel := by
  intro fuel
  induction fuel with
  | zero =>
    intro attempts hinv _
    simp [retryLoop]; omega
  | succ n ih =>
    intro attempts hinv hall
    have herr : (oracle (attempts + 1)).isErrorLike = true :=
      hall (attempts + 1) (by omega) (by omega)
    simp only [retryLoop]
    cases hc : oracle (attempts + 1) with
    | ok df => rw [hc] at herr; simp [ApiResponse.isErrorLike] at herr
    | none =>
      by_cases hm : attempts + 1 = m
      · simp only [hm, if_pos rfl]
        refine ⟨rfl, rfl, ?_⟩
        simp; omega
      · simp only [hm, if_false]
        have hrec := ih (attempts + 1) (by omega)
          (fun j hj1 hj2 => hall j (by omega) hj2)
        simp only [List.length_cons]
        exact ⟨hrec.1, hrec.2.1, by rw [hrec.2.2]⟩
    | error msg =>
      by_cases hm : attempts + 1 = m
      · simp only [hm, if_pos rfl]
        refine ⟨rfl, rfl, ?_⟩
        simp; omega
      · simp only [hm, if_false]
        have hrec := ih (attempts + 1) (by omega)
          (fun j hj1 hj2 => hall j (by omega) hj2)
        simp only [List.length_cons]
        exact ⟨hrec.1, hrec.2.1, by rw [hrec.2.2]⟩

/-- If attempts `attempts+1 .. k-1` all error (or yield `None`) and attempt
`k ≤ m` returns a `DataFrame`, the loop returns that `DataFrame` with the
counter at exactly `k`: the table is returned immediately on the attempt that
produced it, whether empty or not. -/
theorem retryLoop_reaches_ok (oracle : Nat → ApiResponse) (m : Nat) :
    ∀ fuel attempts k df, attempts + fuel = m → attempts < k → k ≤ m →
      (∀ j, attempts < j → j < k → (oracle j).isErrorLike = true) →
      oracle k = ApiResponse.ok df →
      (retryLoop oracle m attempts fuel).1 = Option.some df ∧
      (retryLoop oracle m attempts fuel).2.1 = k := by
  intro fuel
  induction fuel with
  | zero => intro attempts k df hinv hk1 hk2 _ _; omega
  | succ n ih =>
    intro attempts k df hinv hk1 hk2 hbefore hok
    simp only [retryLoop]
    by_cases hak : attempts + 1 = k
    · rw [hak, hok]
      by_cases he : df.isEmpty = false <;> simp [he]
    · have hlt : attempts + 1 < k := by omega
      have herr : (oracle (attempts + 1)).isErrorLike = true :=
        hbefore (attempts + 1) (by omega) hlt
      cases hc : oracle (attempts + 1) with
      | ok df' => rw [hc] at herr; simp [ApiResponse.isErrorLike] at herr
      | none =>
        have hm : ¬ (attempts + 1 = m) := by omega
        simp only [hm, if_false]
        have hrec := ih (attempts + 1) k df (by omega) hlt hk2
          (fun j hj1 hj2 => hbefore j (by omega) hj2) hok
        exact ⟨hrec.1, hrec.2⟩
      | error msg =>
        have hm : ¬ (attempts + 1 = m) := by omega
        simp only [hm, if_false]
        have hrec := ih (attempts + 1) k df (by omega) hlt hk2
          (fun j hj1 hj2 => hbefore j (by omega) hj2) hok
        exact ⟨hrec.1, hrec.2⟩

/-- The loop treats a `None` payload exactly as a raised exception. -/
theorem retryLoop_mapNoneToError (oracle : Nat → ApiResponse) (m : Nat) :
    ∀ fuel attempts,
      retryLoop (mapNoneToError oracle) m attempts fuel
        = retryLoop oracle m attempts fuel := by
  intro fuel
  induction fuel with
  | zero => intro attempts; rfl
  | succ n ih =>
    intro attempts
    simp only [retryLoop]
    cases hc : oracle (attempts + 1) with
    | ok df => simp [mapNoneToError, hc]
    | none => simp [mapNoneToError, hc, ih]
    | error msg => simp [mapNoneToError, hc, ih]

/-! ### Helper lemmas about the sanitizer -/

theorem sanitize_char_step (c : Char) :
    (fun c => if c = 'J' then 'A' else c)
      ((fun c => if c = 'B' then 'A' else c)
        ((fun c => if c = 'X' then 'A' else c) c)) = sanitizeCharSpec c := by
  simp only [sanitizeCharSpec]
  by_cases hx : c = 'X'
  · subst hx; decide
  · by_cases hb : c = 'B'
    · subst hb; decide
    · by_cases hj : c = 'J'
      · subst hj; decide
      · simp [hx, hb, hj]

/-- The three chained `str.replace` calls of the source equal one pass of the
spec's character map. -/
theorem sanitizeList_eq_map (s : List Char) :
    sanitizeList s = s.map sanitizeCharSpec := by
  simp only [sanitizeList, pyReplaceChar, List.map_map]
  have h : ((fun c => if c = 'J' then 'A' else c) ∘
      (fun c => if c = 'B' then 'A' else c) ∘
      (fun c => if c = 'X' then 'A' else c)) = sanitizeCharSpec := by
    funext c
    exact sanitize_char_step c
  rw [h]

theorem sanitizeCharSpec_idem (c : Char) :
    sanitizeCharSpec (sanitizeCharSpec c) = sanitizeCharSpec c := by
  simp only [sanitizeCharSpec]
  by_cases h : c = 'X' ∨ c = 'B' ∨ c = 'J'
  · simp only [if_pos h]; decide
  · simp only [if_neg h]

theorem sanitizeList_idem (s : List Char) :
    sanitizeList (sanitizeList s) = sanitizeList s := by
  simp only [sanitizeList_eq_map, List.map_map]
  have h : (sanitizeCharSpec ∘ sanitizeCharSpec) = sanitizeCharSpec := by
    funext c
    exact sanitizeCharSpec_idem c
  rw [h]

theorem sanitizeList_length (s : List Char) :
    (sanitizeList s).length = s.length := by
  simp [sanitizeList_eq_map]

/-! ### Claim theorems for the retry client and the sanitizer -/

/-- Every Python return value of the retry client falls under exactly one of
the spec's three outcome kinds. -/
theorem outcomeOf_trichotomy (r : Option DataFrame) :
    outcomeOf r = Outcome.permanentFailure ∨
    (∃ df, r = Option.some df ∧ outcomeOf r = Outcome.emptyResult df) ∨
    (∃ df, r = Option.some df ∧ outcomeOf r = Outcome.success df) := by
  cases r with
  | none => left; rfl
  | some df =>
    by_cases he : df.isEmpty
    · right; left; exact ⟨df, rfl, by simp [outcomeOf, he]⟩
    · right; right; exact ⟨df, rfl, by simp [outcomeOf, he]⟩

/-- C1: for every submission, `query_mhcii_with_retry` performs at most
`max_retries` attempts and terminates with exactly one of the three outcome
kinds (non-empty result, empty result, permanent failure).  The Lean type
`Option DataFrame × Nat × List LogEvent` — rather than `Except` — records
that no exception crosses the function's boundary: the `try/except` inside
the loop consumes every raised error. -/
theorem query_retry_bounded_and_three_outcomes (remote : RemoteOracle)
    (sequence alleles_str : String) (max_retries delay_seconds : Nat)
    (protein_name : String) :
    (query_mhcii_with_retry remote sequence alleles_str max_retries
        delay_seconds protein_name).2.1 ≤ max_retries ∧
    (outcomeOf (query_mhcii_with_retry remote sequence alleles_str max_retries
        delay_seconds protein_name).1 = Outcome.permanentFailure ∨
     (∃ df, outcomeOf (query_mhcii_with_retry remote sequence alleles_str
        max_retries delay_seconds protein_name).1 = Outcome.emptyResult df) ∨
     (∃ df, outcomeOf (query_mhcii_with_retry remote sequence alleles_str
        max_retries delay_seconds protein_name).1 = Outcome.success df)) := by
  constructor
  · have h := retryLoop_attempts_le (remote sequence alleles_str)
      max_retries max_retries 0
    simpa [query_mhcii_with_retry] using h
  · rcases outcomeOf_trichotomy (query_mhcii_with_retry remote sequence
        alleles_str max_retries delay_seconds protein_name).1 with h | h | h
    · exact Or.inl h
    · exact Or.inr (Or.inl ⟨h.choose, h.choose_spec.2⟩)
    · exact Or.inr (Or.inr ⟨h.choose, h.choose_spec.2⟩)

/-- C2: if every attempt of the remote call errors (or yields a `None`
payload), the retry client performs exactly `max_retries` attempts, logs one
line per attempt, and returns the permanent-failure value `None`; the task
runner `iedb_worker` then returns normally having written no file at all. -/
theorem always_error_exhausts_and_writes_nothing (remote : RemoteOracle)
    (persistFails : PersistFailure) (max_retries delay_seconds : Nat)
    (seq_record : SeqRecord) (long_dir short_dir alleles_str species : String)
    (hall : ∀ j, 1 ≤ j → j ≤ max_retries →
      (remote (sanitize seq_record.seq) alleles_str j).isErrorLike = true) :
    (query_mhcii_with_retry remote (sanitize seq_record.seq) alleles_str
        max_retries delay_seconds seq_record.id).1 = Option.none ∧
    (query_mhcii_with_retry remote (sanitize seq_record.seq) alleles_str
        max_retries delay_seconds seq_record.id).2.1 = max_retries ∧
    (query_mhcii_with_retry remote (sanitize seq_record.seq) alleles_str
        max_retries delay_seconds seq_record.id).2.2.length = max_retries ∧
    iedb_worker remote persistFails max_retries delay_seconds seq_record
        long_dir short_dir alleles_str species = Except.ok [] := by
  have h := retryLoop_all_error (remote (sanitize seq_record.seq) alleles_str)
    max_retries max_retries 0 (by omega)
    (fun j hj1 hj2 => hall j (by omega) hj2)
  have hq1 : (query_mhcii_with_retry remote (sanitize seq_record.seq)
      alleles_str max_retries delay_seconds seq_record.id).1 = Option.none := h.1
  refine ⟨h.1, h.2.1, h.2.2, ?_⟩
  simp only [iedb_worker]
  rw [hq1]

/-- Witness for C2: a remote call that errors on all of 3 allowed attempts
yields `None` after exactly 3 attempts and 3 log lines, and the worker writes
nothing. -/
theorem always_error_exhausts_and_writes_nothing_witness :
    (∀ j, 1 ≤ j → j ≤ 3 →
      ((fun (_ : String) (_ : String) (_ : Nat) => ApiResponse.error "boom")
        (sanitize "ACDXBJ") "al" j).isErrorLike = true) ∧
    (query_mhcii_with_retry (fun _ _ _ => ApiResponse.error "boom")
        (sanitize "ACDXBJ") "al" 3 10 "P1").1 = Option.none ∧
    (query_mhcii_with_retry (fun _ _ _ => ApiResponse.error "boom")
        (sanitize "ACDXBJ") "al" 3 10 "P1").2.1 = 3 ∧
    (query_mhcii_with_retry (fun _ _ _ => ApiResponse.error "boom")
        (sanitize "ACDXBJ") "al" 3 10 "P1").2.2.length = 3 ∧
    iedb_worker (fun _ _ _ => ApiResponse.error "boom") (fun _ => false)
        3 10 ⟨"P1", "ACDXBJ"⟩ "LDIR" "SDIR" "al" "mouse" = Except.ok [] :=
  ⟨fun _ _ _ => rfl,
   always_error_exhausts_and_writes_nothing
     (fun _ _ _ => ApiResponse.error "boom") (fun _ => false) 3 10
     ⟨"P1", "ACDXBJ"⟩ "LDIR" "SDIR" "al" "mouse" (fun _ _ _ => rfl)⟩

/-- C3: if the first `k - 1` attempts error (or yield `None`) and attempt
`k ≤ max_retries` returns a structurally valid but empty `DataFrame`, the
retry client returns that empty table immediately on attempt `k` — the
attempt counter stops at `k`, so no further retry follows — and the outcome
classifies as `EmptyResult`, not as an error. -/
theorem empty_result_returned_immediately (remote : RemoteOracle)
    (sequence alleles_str : String) (max_retries delay_seconds : Nat)
    (protein_name : String) (k : Nat) (df : DataFrame)
    (hk1 : 1 ≤ k) (hk2 : k ≤ max_retries)
    (hbefore : ∀ j, 1 ≤ j → j < k →
      (remote sequence alleles_str j).isErrorLike = true)
    (hok : remote sequence alleles_str k = ApiResponse.ok df)
    (hemp : df.isEmpty = true) :
    (query_mhcii_with_retry remote sequence alleles_str max_retries
        delay_seconds protein_name).1 = Option.some df ∧
    (query_mhcii_with_retry remote sequence alleles_str max_retries
        delay_seconds protein_name).2.1 = k ∧
    outcomeOf (query_mhcii_with_retry remote sequence alleles_str max_retries
        delay_seconds protein_name).1 = Outcome.emptyResult df := by
  have h := retryLoop_reaches_ok (remote sequence alleles_str) max_retries
    max_retries 0 k df (by omega) (by omega) hk2
    (fun j hj1 hj2 => hbefore j (by omega) hj2) hok
  refine ⟨h.1, h.2, ?_⟩
  have h1 : (query_mhcii_with_retry remote sequence alleles_str max_retries
      delay_seconds protein_name).1 = Option.some df := h.1
  rw [h1]
  simp [outcomeOf, hemp]

/-- Witness for C3: attempt 1 errors, attempt 2 returns an empty table; the
client returns the empty table with the counter at 2 (no third attempt). -/
theorem empty_result_returned_immediately_witness :
    ((fun (_ : String) (_ : String) (j : Nat) =>
        if j = 1 then ApiResponse.error "e" else ApiResponse.ok ⟨["allele"], []⟩)
        "SEQ" "al" 2 = ApiResponse.ok ⟨["allele"], []⟩) ∧
    (DataFrame.isEmpty ⟨["allele"], []⟩ = true) ∧
    (query_mhcii_with_retry
        (fun _ _ j => if j = 1 then ApiResponse.error "e"
          else ApiResponse.ok ⟨["allele"], []⟩)
        "SEQ" "al" 5 10 "P1").1 = Option.some ⟨["allele"], []⟩ ∧
    (query_mhcii_with_retry
        (fun _ _ j => if j = 1 then ApiResponse.error "e"
          else ApiResponse.ok ⟨["allele"], []⟩)
        "SEQ" "al" 5 10 "P1").2.1 = 2 ∧
    outcomeOf (query_mhcii_with_retry
        (fun _ _ j => if j = 1 then ApiResponse.error "e"
          else ApiResponse.ok ⟨["allele"], []⟩)
        "SEQ" "al" 5 10 "P1").1 = Outcome.emptyResult ⟨["allele"], []⟩ :=
  ⟨rfl, rfl, by
    have h := empty_result_returned_immediately
      (fun _ _ j => if j = 1 then ApiResponse.error "e"
        else ApiResponse.ok ⟨["allele"], []⟩)
      "SEQ" "al" 5 10 "P1" 2 ⟨["allele"], []⟩
      (by omega) (by omega)
      (by
        intro j hj1 hj2
        have hj : j = 1 := by omega
        subst hj
        rfl)
      rfl rfl
    exact ⟨h.1, h.2.1, h.2.2⟩⟩

/-- C6: a `None` payload from a structurally successful call is treated
identically to a raised (transient) error: replacing every `None` response by
the exception the code raises for it changes nothing — neither the returned
value, nor the attempt count, nor the emitted log lines. -/
theorem none_payload_treated_as_transient (remote : RemoteOracle)
    (sequence alleles_str : String) (max_retries delay_seconds : Nat)
    (protein_name : String) :
    query_mhcii_with_retry (fun s a j => mapNoneToError (remote s a) j)
        sequence alleles_str max_retries delay_seconds protein_name
      = query_mhcii_with_retry remote sequence alleles_str max_retries
          delay_seconds protein_name := by
  simp only [query_mhcii_with_retry]
  exact retryLoop_mapNoneToError (remote sequence alleles_str)
    max_retries max_retries 0

/-! ### Helper lemmas about DataFrame operations -/

theorem setColumn_of_not_mem (df : DataFrame) (name : String) (v : Cell)
    (h : name ∉ df.cols) :
    (df.setColumn name v).cols = df.cols ++ [name] ∧
    (df.setColumn name v).rows = df.rows.map (fun r => r ++ [v]) := by
  simp [DataFrame.setColumn, h]

theorem setColumn_rows_length (df : DataFrame) (name : String) (v : Cell) :
    ((df.setColumn name v).rows).length = df.rows.length := by
  by_cases hc : name ∈ df.cols <;> simp [DataFrame.setColumn, hc]

theorem ilocCols_rows_length (df : DataFrame) (n : Nat) :
    ((df.ilocCols n).rows).length = df.rows.length := by
  simp [DataFrame.ilocCols]

/-! ### Claim theorems for the sanitizer -/

/-- C7: the sanitizer replaces every occurrence of the three ambiguous
symbols `X`, `B`, `J` with the canonical substitute `A` and leaves all other
characters unchanged (it is one pass of the character map
`sanitizeCharSpec`); in particular `"ACDXBJ"` sanitizes to `"ACDAAA"`. -/
theorem sanitizer_replaces_ambiguous_symbols :
    (∀ s : String, sanitize s = String.mk (s.data.map sanitizeCharSpec)) ∧
    sanitize "ACDXBJ" = "ACDAAA" := by
  constructor
  · intro s
    exact congrArg String.mk (sanitizeList_eq_map s.data)
  · rfl

/-- C8: the sanitizer is total (a plain Lean function on all of `String`),
idempotent, and length-preserving. -/
theorem sanitize_idempotent_total_length (s : String) :
    sanitize (sanitize s) = sanitize s ∧ (sanitize s).length = s.length := by
  constructor
  · exact congrArg String.mk (sanitizeList_idem s.data)
  · exact sanitizeList_length s.data

/-! ### Claim theorems for the task runner and the orchestrator -/

/-- C5: when the retry client hands the worker a table (non-`None` result,
empty or not), the worker emits exactly two writes: the "long" file at
`long_dir/<id>_RESULTS_LONG.csv` holding every result column plus the
appended `protein` column, and the "short" file at
`short_dir/<id>_RESULTS_SHORT.csv` holding the first 8 columns of the same
rows; both files carry exactly as many rows as the result table. -/
theorem worker_success_writes_long_and_short (remote : RemoteOracle)
    (persistFails : PersistFailure) (max_retries delay_seconds : Nat)
    (seq_record : SeqRecord) (long_dir short_dir alleles_str species : String)
    (df : DataFrame)
    (hq : (query_mhcii_with_retry remote (sanitize seq_record.seq) alleles_str
        max_retries delay_seconds seq_record.id).1 = Option.some df)
    (hfs : ∀ p, persistFails p = false)
    (hp : "protein" ∉ df.cols) :
    iedb_worker remote persistFails max_retries delay_seconds seq_record
        long_dir short_dir alleles_str species
      = Except.ok
          [⟨long_dir ++ "/" ++ seq_record.id ++ "_RESULTS_LONG.csv",
             df.setColumn "protein" seq_record.id⟩,
           ⟨short_dir ++ "/" ++ seq_record.id ++ "_RESULTS_SHORT.csv",
             (df.setColumn "protein" seq_record.id).ilocCols 8⟩] ∧
    (df.setColumn "protein" seq_record.id).cols = df.cols ++ ["protein"] ∧
    ((df.setColumn "protein" seq_record.id).ilocCols 8).cols
      = (df.cols ++ ["protein"]).take 8 ∧
    ((df.setColumn "protein" seq_record.id).ilocCols 8).rows
      = ((df.setColumn "protein" seq_record.id).rows).map (List.take 8) ∧
    ((df.setColumn "protein" seq_record.id).rows).length = df.rows.length ∧
    (((df.setColumn "protein" seq_record.id).ilocCols 8).rows).length
      = df.rows.length := by
  have hset := setColumn_of_not_mem df "protein" seq_record.id hp
  refine ⟨?_, hset.1, ?_, rfl, ?_, ?_⟩
  · simp only [iedb_worker]
    rw [hq]
    simp [hfs]
  · simp [DataFrame.ilocCols, hset.1]
  · exact setColumn_rows_length df "protein" seq_record.id
  · rw [ilocCols_rows_length]
    exact setColumn_rows_length df "protein" seq_record.id

/-- Witness for C5: a first-attempt success over the sample table makes the
worker write exactly the long and the short artifact, with matching row
counts. -/
theorem worker_success_writes_long_and_short_witness :
    (query_mhcii_with_retry (fun _ _ _ => ApiResponse.ok sampleResult)
        (sanitize "ACDXBJ") "al" 15 10 "P1").1 = Option.some sampleResult ∧
    "protein" ∉ sampleResult.cols ∧
    iedb_worker (fun _ _ _ => ApiResponse.ok sampleResult) (fun _ => false)
        15 10 ⟨"P1", "ACDXBJ"⟩ "LDIR" "SDIR" "al" "mouse"
      = Except.ok
          [⟨"LDIR/P1_RESULTS_LONG.csv", sampleResult.setColumn "protein" "P1"⟩,
           ⟨"SDIR/P1_RESULTS_SHORT.csv",
             (sampleResult.setColumn "protein" "P1").ilocCols 8⟩] ∧
    (sampleResult.setColumn "protein" "P1").cols
      = sampleResult.cols ++ ["protein"] ∧
    ((sampleResult.setColumn "protein" "P1").rows).length
      = sampleResult.rows.length ∧
    (((sampleResult.setColumn "protein" "P1").ilocCols 8).rows).length
      = sampleResult.rows.length := by
  have h := worker_success_writes_long_and_short
    (fun _ _ _ => ApiResponse.ok sampleResult) (fun _ => false) 15 10
    ⟨"P1", "ACDXBJ"⟩ "LDIR" "SDIR" "al" "mouse" sampleResult rfl
    (fun _ => rfl) (by decide)
  exact ⟨rfl, by decide, h.1, h.2.1, h.2.2.2.2.1, h.2.2.2.2.2⟩

/-- C10 (implicit): because the `protein` column is appended at the right end
and only then the first 8 columns are kept, a genuinely injected `protein`
column (one not already present in the service schema) reaches the "short"
artifact exactly when the service result has fewer than 8 columns; with at
least 8 service columns the short artifact's columns are exactly the first 8
service columns. -/
theorem short_artifact_excludes_injected_protein (df : DataFrame) (pid : String)
    (hp : "protein" ∉ df.cols) :
    (8 ≤ df.cols.length →
      ((df.setColumn "protein" pid).ilocCols 8).cols = df.cols.take 8 ∧
      "protein" ∉ ((df.setColumn "protein" pid).ilocCols 8).cols) ∧
    ("protein" ∈ ((df.setColumn "protein" pid).ilocCols 8).cols
      ↔ df.cols.length < 8) := by
  have hset := setColumn_of_not_mem df "protein" pid hp
  have hcols : ((df.setColumn "protein" pid).ilocCols 8).cols
      = (df.cols ++ ["protein"]).take 8 := by
    simp [DataFrame.ilocCols, hset.1]
  constructor
  · intro h8
    have htake : (df.cols ++ ["protein"]).take 8 = df.cols.take 8 :=
      List.take_append_of_le_length h8
    refine ⟨by rw [hcols, htake], ?_⟩
    rw [hcols, htake]
    intro hmem
    exact hp (List.take_subset 8 df.cols hmem)
  · rw [hcols]
    constructor
    · intro hmem
      by_contra hge
      have h8 : 8 ≤ df.cols.length := by omega
      rw [List.take_append_of_le_length h8] at hmem
      exact hp (List.take_subset 8 df.cols hmem)
    · intro hlt
      have hlen : (df.cols ++ ["protein"]).length ≤ 8 := by
        simp
        omega
      rw [List.take_of_length_le hlen]
      simp

/-- Witness for C10: on the 9-column sample table, the short artifact's
columns are the first 8 service columns and `protein` is not among them. -/
theorem short_artifact_excludes_injected_protein_witness :
    "protein" ∉ sampleResult.cols ∧
    8 ≤ sampleResult.cols.length ∧
    ((sampleResult.setColumn "protein" "P1").ilocCols 8).cols
      = sampleResult.cols.take 8 ∧
    "protein" ∉ ((sampleResult.setColumn "protein" "P1").ilocCols 8).cols ∧
    ("protein" ∈ ((sampleResult.setColumn "protein" "P1").ilocCols 8).cols
      ↔ sampleResult.cols.length < 8) := by
  have h := short_artifact_excludes_injected_protein sampleResult "P1" (by decide)
  have h8 : 8 ≤ sampleResult.cols.length := by decide
  exact ⟨by decide, h8, (h.1 h8).1, (h.1 h8).2, h.2⟩

/-- Counterexample to C4 as stated: with a healthy remote call and a failing
filesystem, the exception raised while persisting escapes `iedb_worker`
itself — the worker body has no try/except, so the error is not confined to
the task runner's boundary but re-raised into the dispatcher's `starmap`. -/
theorem persist_error_escapes_worker :
    iedb_worker (fun _ _ _ => ApiResponse.ok sampleResult) (fun _ => true)
        15 10 ⟨"P1", "ACDXBJ"⟩ "LDIR" "SDIR" "al" "mouse"
      = Except.error "to_csv failed: LDIR/P1_RESULTS_LONG.csv" := rfl

/-- C4, amended: a persisting error escapes the task runner into the
dispatcher, but it is caught by the `try/except` wrapped around the pool in
`main`: for any task body — even one that always raises — a run over a
non-empty record list still reaches the `completed` terminal state with the
pool started, and only a setup-phase (FASTA-parse) failure produces the
process-level `setupFailure` termination. -/
theorem per_record_errors_caught_at_dispatcher
    (worker : SeqRecord → Except String (List WriteEvent))
    (recs : List SeqRecord) (msg : String) (hne : recs ≠ []) :
    (mainRun (Except.ok recs) worker).terminal = TerminalState.completed ∧
    (mainRun (Except.ok recs) worker).poolStarted = true ∧
    (mainRun (Except.error msg) worker).terminal
      = TerminalState.setupFailure := by
  have hlen : ¬ (recs.length = 0) := by simpa using hne
  refine ⟨?_, ?_, rfl⟩ <;>
  · simp only [mainRun, hlen, if_false]
    cases h : poolStarmap worker recs <;> simp [h]

/-- Witness for C4's amendment: one record whose worker always raises a
persist error still yields a completed run with the pool started, while a
parse failure yields `setupFailure`. -/
theorem per_record_errors_caught_at_dispatcher_witness :
    ([(⟨"P1", "ACDXBJ"⟩ : SeqRecord)] ≠ []) ∧
    (mainRun (Except.ok [⟨"P1", "ACDXBJ"⟩])
        (fun _ => Except.error "to_csv failed")).terminal
      = TerminalState.completed ∧
    (mainRun (Except.ok [⟨"P1", "ACDXBJ"⟩])
        (fun _ => Except.error "to_csv failed")).poolStarted = true ∧
    (mainRun (Except.error "Error reading FASTA file")
        (fun _ => Except.error "to_csv failed")).terminal
      = TerminalState.setupFailure := by
  have h := per_record_errors_caught_at_dispatcher
    (fun _ => Except.error "to_csv failed") [⟨"P1", "ACDXBJ"⟩]
    "Error reading FASTA file" (by simp)
  exact ⟨by simp, h.1, h.2.1, h.2.2⟩

/-- C9: with zero parsed records, `main` logs the sequence count and the
no-input warning and returns cleanly in the `noInput` terminal state without
ever starting the pool or dispatching any task. -/
theorem zero_records_skip_pool
    (worker : SeqRecord → Except String (List WriteEvent)) :
    mainRun (Except.ok []) worker
      = ⟨TerminalState.noInput, false,
          [MainEvent.seqCount 0, MainEvent.noInputWarn]⟩ := rfl

